import Mathlib

/-!
Shallow embedding of `src/booking.py`, a pandas/streamlit dashboard that
loads a CSV of hotel records, cleans the `price` and `rating` columns,
drops rows with missing values, filters by sidebar controls and renders
eight charts.  Missing numeric values (pandas `NaN`) are modelled as
`none : Option ℚ`; tables are `List`s of rows.
-/

namespace Booking

/-- Digits of a decimal numeral folded into a natural number. -/
def digitsToNat (ds : List Char) : ℕ :=
  ds.foldl (fun n c => 10 * n + (c.toNat - 48)) 0

/-- Model of numeric parsing of an unsigned decimal string, as
`pd.to_numeric` does on strings such as `"1234"`, `"12.5"`, `".5"`:
an optional integer part, an optional dot-and-fraction part, at least one
digit overall, and nothing else.  Returns `none` (pandas `NaN` under
`errors='coerce'`) when the string is not such a numeral.  The value is
built with `mkRat` (all the digits over `10 ^ `fraction length); the
lemma `parseUnsigned_decimal_value` below checks that this is the usual
integer-part-plus-fraction reading of a decimal numeral. -/
def parseUnsigned (cs : List Char) : Option ℚ :=
  let ip := cs.takeWhile Char.isDigit
  let rest := cs.dropWhile Char.isDigit
  match rest with
  | [] => if ip.isEmpty then none else some (mkRat (digitsToNat ip) 1)
  | '.' :: rest2 =>
      let fp := rest2.takeWhile Char.isDigit
      let rest3 := rest2.dropWhile Char.isDigit
      if rest3.isEmpty && !(ip.isEmpty && fp.isEmpty) then
        some (mkRat (digitsToNat (ip ++ fp)) (10 ^ fp.length))
      else none
  | _ => none

/-- Model of `pd.to_numeric(s, errors='coerce')` on a string: an optional
sign followed by an unsigned decimal numeral. -/
def parseSigned : List Char → Option ℚ
  | '+' :: cs => parseUnsigned cs
  | '-' :: cs => (parseUnsigned cs).map (fun q => -q)
  | cs => parseUnsigned cs

/-- Whether `pat` starts the list `l`. -/
def begins : List Char → List Char → Bool
  | [], _ => true
  | _ :: _, [] => false
  | p :: ps, c :: cs => p == c && begins ps cs

/-- Fuelled worker for `stripOcc`; one unit of fuel is spent per consumed
character, so fuel equal to the list length always suffices. -/
def stripOccAux (pat : List Char) : ℕ → List Char → List Char
  | 0, l => l
  | _ + 1, [] => []
  | fuel + 1, c :: cs =>
      if begins pat (c :: cs) then stripOccAux pat fuel ((c :: cs).drop pat.length)
      else c :: stripOccAux pat fuel cs

/-- Model of Python `str.replace(pat, '')`: remove every non-overlapping
occurrence of `pat`, scanning left to right. -/
def stripOcc (pat l : List Char) : List Char :=
  if pat.isEmpty then l else stripOccAux pat l.length l

/-- Model of Python `str.strip()`: drop leading and trailing whitespace. -/
def pystrip (l : List Char) : List Char :=
  ((l.dropWhile Char.isWhitespace).reverse.dropWhile Char.isWhitespace).reverse

/-- Price cleaning from booking.py lines 17-20:
`pd.to_numeric(price.str.replace('EGP','').str.replace(',','').str.strip(), errors='coerce')`. -/
def cleanPrice (s : String) : Option ℚ :=
  parseSigned (pystrip (stripOcc [','] (stripOcc ['E', 'G', 'P'] s.toList)))

/-- Match of the regex `\d+\.\d+` anchored at the start of `l`: a maximal
nonempty digit run, a literal dot, then a nonempty digit run (greedy, as
the regex engine produces: shortening the first `\d+` cannot make the dot
match, since the next character would still be a digit). -/
def matchDecAt (l : List Char) : Option (List Char) :=
  let d1 := l.takeWhile Char.isDigit
  let r1 := l.dropWhile Char.isDigit
  if d1.isEmpty then none else
  match r1 with
  | '.' :: r2 =>
      let d2 := r2.takeWhile Char.isDigit
      if d2.isEmpty then none else some (d1 ++ '.' :: d2)
  | _ => none

/-- Model of `Series.str.extract('(\d+\.\d+)')`: the leftmost match of the
pattern, or `none` when no position matches. -/
def extractDec : List Char → Option (List Char)
  | [] => none
  | c :: cs =>
      match matchDecAt (c :: cs) with
      | some m => some m
      | none => extractDec cs

/-- Rating cleaning from booking.py lines 23-26:
`pd.to_numeric(rating.str.extract('(\d+\.\d+)')[0], errors='coerce')`. -/
def cleanRating (s : String) : Option ℚ :=
  (extractDec s.toList).bind parseSigned

/-- A raw CSV record before cleaning: all four columns are text. -/
structure RawRecord where
  name : String
  location : String
  price : String
  rating : String
deriving Repr, DecidableEq

/-- A row of the in-memory table: `none` in a numeric column is pandas
`NaN`. -/
structure Row where
  name : String
  location : String
  price : Option ℚ
  rating : Option ℚ
deriving Repr, DecidableEq

/-- Column cleaning applied to one record (booking.py lines 17-26). -/
def toRow (r : RawRecord) : Row :=
  ⟨r.name, r.location, cleanPrice r.price, cleanRating r.rating⟩

/-- The table after both column conversions, before `dropna`. -/
def cleanRows (rs : List RawRecord) : List Row := rs.map toRow

/-- Model of `hotels_df.dropna(subset=['price','rating'])` (line 29). -/
def dropnaRows (rows : List Row) : List Row :=
  rows.filter (fun x => x.price.isSome && x.rating.isSome)

/-- The cleaned base table `hotels_df` as it stands after line 29. -/
def hotels_df (rs : List RawRecord) : List Row := dropnaRows (cleanRows rs)

/-- The sidebar control values: a price range, a rating range and the
multiselect of locations. -/
structure Controls where
  minPrice : ℚ
  maxPrice : ℚ
  minRating : ℚ
  maxRating : ℚ
  locations : List String
deriving Repr, DecidableEq

/-- Pandas `series >= q` on a possibly-NaN entry: `NaN` compares false. -/
def optGe (o : Option ℚ) (q : ℚ) : Bool :=
  match o with
  | some x => decide (q ≤ x)
  | none => false

/-- Pandas `series <= q` on a possibly-NaN entry: `NaN` compares false. -/
def optLe (o : Option ℚ) (q : ℚ) : Bool :=
  match o with
  | some x => decide (x ≤ q)
  | none => false

/-- Pandas `series < t` where either side may be `NaN`: any comparison
with `NaN` is false. -/
def optLtOpt (o m : Option ℚ) : Bool :=
  match o, m with
  | some x, some y => decide (x < y)
  | _, _ => false

/-- The conjunction of the five boolean masks of lines 57-61. -/
def rowMatches (c : Controls) (r : Row) : Bool :=
  optGe r.price c.minPrice && optLe r.price c.maxPrice &&
  optGe r.rating c.minRating && optLe r.rating c.maxRating &&
  c.locations.contains r.location

/-- The Filter Evaluator `filtered_df` (lines 56-62): boolean-mask
selection of the base table. -/
def filtered_df (df : List Row) (c : Controls) : List Row :=
  df.filter (rowMatches c)

/-- Addition of rationals written with `Rat.divInt` so that it evaluates
by kernel reduction; `qadd_eq_add` proves it is ordinary addition. -/
def qadd (a b : ℚ) : ℚ :=
  Rat.divInt (a.num * (b.den : ℤ) + b.num * (a.den : ℤ)) ((a.den : ℤ) * (b.den : ℤ))

/-- Sum of a list of rationals; `qsum_eq_sum` proves it is `List.sum`. -/
def qsum (l : List ℚ) : ℚ := l.foldr qadd 0

/-- Pandas `Series.mean()` with default `skipna=True`: the mean of the
non-NaN entries, `NaN` (here `none`) when there are none.  Written with
`Rat.divInt`; `seriesMean_eq_sum_div_length` proves it is sum over
count. -/
def seriesMean (l : List (Option ℚ)) : Option ℚ :=
  if (l.filterMap id).isEmpty then none else
    some (Rat.divInt (qsum (l.filterMap id)).num
      (((qsum (l.filterMap id)).den : ℤ) * ((l.filterMap id).length : ℤ)))

/-- Sort key for `sort_values(by='rating', ascending=False)`: `NaN` rows
sort to the end, modelled by sending `none` to `⊥`. -/
def ratingKey (r : Row) : WithBot ℚ :=
  match r.rating with
  | some q => (q : WithBot ℚ)
  | none => ⊥

/-- The descending-by-rating order used by `sort_values(by='rating',
ascending=False)`. -/
def ratingGE (a b : Row) : Prop := ratingKey b ≤ ratingKey a

instance : DecidableRel ratingGE :=
  fun a b => inferInstanceAs (Decidable (ratingKey b ≤ ratingKey a))

instance : IsTotal Row ratingGE :=
  ⟨fun a b => le_total (ratingKey b) (ratingKey a)⟩

instance : IsTrans Row ratingGE :=
  ⟨fun _ _ _ h1 h2 => le_trans h2 h1⟩

/-- Model of `filtered_df.sort_values(by='rating', ascending=False)`. -/
def sortRatingDesc (df : List Row) : List Row :=
  List.insertionSort ratingGE df

/-- Analysis 1 (line 70): `top_rated`, the first ten rows of the table
sorted by rating descending. -/
def top_rated (df : List Row) : List Row :=
  (sortRatingDesc df).take 10

/-- Data of the bar chart `fig_top_rated`: name on x, rating on y. -/
def figTopRated (df : List Row) : List (String × Option ℚ) :=
  (top_rated df).map (fun r => (r.name, r.rating))

/-- Data fed to the histogram `fig_price_dist`: the price column. -/
def figPriceDist (df : List Row) : List (Option ℚ) :=
  df.map Row.price

/-- Data of the scatter `fig_rating_vs_price`: rating, price, name. -/
def figRatingVsPrice (df : List Row) : List (Option ℚ × Option ℚ × String) :=
  df.map (fun r => (r.rating, r.price, r.name))

/-- Group keys of `filtered_df.groupby("name")`: the distinct names,
sorted (pandas groupby sorts keys by default). -/
def sortedNames (df : List Row) : List String :=
  List.insertionSort (fun a b : String => a ≤ b) (df.map Row.name).dedup

/-- Analysis 4 (line 109): `avg_price_by_hotel`, the per-name mean of the
price column. -/
def avg_price_by_hotel (df : List Row) : List (String × Option ℚ) :=
  (sortedNames df).map
    (fun n => (n, seriesMean ((df.filter (fun r => r.name == n)).map Row.price)))

/-- Analysis 5 (line 123): `budget_hotels`, the rows priced strictly below
the filtered table's mean price. -/
def budget_hotels (df : List Row) : List Row :=
  df.filter (fun r => optLtOpt r.price (seriesMean (df.map Row.price)))

/-- Analysis 5 (line 124): `top_budget_rated`, the first ten budget rows
by rating descending. -/
def top_budget_rated (df : List Row) : List Row :=
  (sortRatingDesc (budget_hotels df)).take 10

/-- Data of the bar chart `fig_budget_rated`. -/
def figBudgetRated (df : List Row) : List (String × Option ℚ) :=
  (top_budget_rated df).map (fun r => (r.name, r.rating))

/-- Data of the seaborn line chart of ratings (line 139). -/
def figRatingLine (df : List Row) : List (String × Option ℚ) :=
  df.map (fun r => (r.name, r.rating))

/-- Data of the seaborn line chart of prices (line 149). -/
def figPriceLine (df : List Row) : List (String × Option ℚ) :=
  df.map (fun r => (r.name, r.price))

/-- Data of the final bar chart `fig_price` (lines 158-165): the whole
filtered table sorted by rating descending, labeled by name.  The
displayed order of its bars is overridden by lines 167-173 and is
modelled separately by `fig_price_displayed_order`. -/
def figAllByRating (df : List Row) : List (String × Option ℚ) :=
  (sortRatingDesc df).map (fun r => (r.name, r.rating))

/-- Total of the y values of one category of a bar chart, as plotly's
`categoryorder 'total ascending'` computes it: the sum of the non-NaN y
values carrying that x label. -/
def categoryTotal (data : List (String × Option ℚ)) (n : String) : ℚ :=
  qsum ((data.filter (fun p => p.1 == n)).filterMap (fun p => p.2))

/-- The category order relation of plotly's `categoryorder
'total ascending'`: ascending by the per-category total. -/
def totalAsc (data : List (String × Option ℚ)) (a b : String) : Prop :=
  categoryTotal data a ≤ categoryTotal data b

instance (data : List (String × Option ℚ)) : DecidableRel (totalAsc data) :=
  fun a b => inferInstanceAs (Decidable (categoryTotal data a ≤ categoryTotal data b))

instance (data : List (String × Option ℚ)) : IsTotal String (totalAsc data) :=
  ⟨fun a b => le_total (categoryTotal data a) (categoryTotal data b)⟩

instance (data : List (String × Option ℚ)) : IsTrans String (totalAsc data) :=
  ⟨fun _ _ _ h1 h2 => le_trans h1 h2⟩

/-- The bar order `fig_price` is actually displayed in, from lines
167-173: `update_layout` sets `xaxis categoryorder 'total ascending'`,
so the rendered x axis lists the distinct hotel names ordered ascending
by their rating total, overriding the descending data order of line
159. -/
def fig_price_displayed_order (df : List Row) : List String :=
  List.insertionSort (totalAsc (figAllByRating df))
    ((figAllByRating df).map Prod.fst).dedup

/-- The process state: the cleaned base table held in memory. -/
structure DashState where
  base : List Row
deriving Repr, DecidableEq

/-- Everything rendered on one interaction: the filtered table and the
data of the eight charts. -/
structure RenderOutput where
  table : List Row
  topRatedChart : List (String × Option ℚ)
  histChart : List (Option ℚ)
  scatterChart : List (Option ℚ × Option ℚ × String)
  avgPriceChart : List (String × Option ℚ)
  budgetChart : List (String × Option ℚ)
  ratingLineChart : List (String × Option ℚ)
  priceLineChart : List (String × Option ℚ)
  allByRatingChart : List (String × Option ℚ)
deriving Repr, DecidableEq

/-- One user interaction (lines 56-174): recompute the filtered view and
every chart from the base table, returning the state afterwards. -/
def renderInteraction (s : DashState) (c : Controls) : DashState × RenderOutput :=
  let fd := filtered_df s.base c
  (⟨s.base⟩,
   ⟨fd, figTopRated fd, figPriceDist fd, figRatingVsPrice fd,
    avg_price_by_hotel fd, figBudgetRated fd, figRatingLine fd,
    figPriceLine fd, figAllByRating fd⟩)

theorem digitsToNat_foldl (b : List Char) (n : ℕ) :
    b.foldl (fun m c => 10 * m + (c.toNat - 48)) n =
      n * 10 ^ b.length + digitsToNat b := by
  induction b generalizing n with
  | nil => simp [digitsToNat]
  | cons c cs ih =>
      simp only [List.foldl_cons, List.length_cons, digitsToNat]
      rw [ih, ih (10 * 0 + (c.toNat - 48))]
      ring

theorem digitsToNat_append (a b : List Char) :
    digitsToNat (a ++ b) = digitsToNat a * 10 ^ b.length + digitsToNat b := by
  unfold digitsToNat
  rw [List.foldl_append]
  exact digitsToNat_foldl b _

theorem mkRat_decimal (A B k : ℕ) :
    (mkRat ((A * 10 ^ k + B : ℕ) : ℤ) (10 ^ k) : ℚ) = (A : ℚ) + (B : ℚ) / 10 ^ k := by
  have h : ((10 : ℚ) ^ k) ≠ 0 := by positivity
  rw [Rat.mkRat_eq_divInt, Rat.divInt_eq_div]
  push_cast
  field_simp

/-- Sanity check of the decimal value built by `parseUnsigned`: all the
digits over `10 ^ `fraction length is integer part plus fraction. -/
theorem parseUnsigned_decimal_value (ip fp : List Char) :
    (mkRat (digitsToNat (ip ++ fp)) (10 ^ fp.length) : ℚ) =
      (digitsToNat ip : ℚ) + (digitsToNat fp : ℚ) / 10 ^ fp.length := by
  rw [digitsToNat_append]
  exact mkRat_decimal _ _ _

theorem qadd_eq_add (a b : ℚ) : qadd a b = a + b := by
  have ha : ((a.den : ℚ)) ≠ 0 := by exact_mod_cast a.den_ne_zero
  have hb : ((b.den : ℚ)) ≠ 0 := by exact_mod_cast b.den_ne_zero
  rw [qadd, Rat.divInt_eq_div]
  conv_rhs => rw [← Rat.num_div_den a, ← Rat.num_div_den b]
  push_cast
  field_simp

theorem qsum_eq_sum (l : List ℚ) : qsum l = l.sum := by
  induction l with
  | nil => rfl
  | cons x xs ih =>
      show qadd x (qsum xs) = (x :: xs).sum
      rw [qadd_eq_add, ih, List.sum_cons]

theorem seriesMean_eq_sum_div_length (l : List (Option ℚ))
    (h : l.filterMap id ≠ []) :
    seriesMean l =
      some ((l.filterMap id).sum / ((l.filterMap id).length : ℚ)) := by
  obtain ⟨a, as, hv⟩ := List.exists_cons_of_ne_nil h
  unfold seriesMean
  rw [hv]
  simp only [List.isEmpty_cons, Bool.false_eq_true, if_false, Option.some.injEq]
  rw [Rat.divInt_eq_div]
  push_cast
  rw [← div_div, Rat.num_div_den, qsum_eq_sum]

/-- C1: every record in the Filter Evaluator's output has price in
[min_price, max_price] inclusive, rating in [min_rating, max_rating]
inclusive, and location in the selected set, and the output has at most
as many records as the input. -/
theorem C1_filter_evaluator_sound (df : List Row) (c : Controls) :
    (∀ r ∈ filtered_df df c,
        (∃ p, r.price = some p ∧ c.minPrice ≤ p ∧ p ≤ c.maxPrice) ∧
        (∃ q, r.rating = some q ∧ c.minRating ≤ q ∧ q ≤ c.maxRating) ∧
        r.location ∈ c.locations) ∧
    (filtered_df df c).length ≤ df.length := by
  refine ⟨fun r hr => ?_, List.length_filter_le _ _⟩
  obtain ⟨hmem, hm⟩ := List.mem_filter.mp hr
  simp only [rowMatches, Bool.and_eq_true] at hm
  obtain ⟨⟨⟨⟨h1, h2⟩, h3⟩, h4⟩, h5⟩ := hm
  refine ⟨?_, ?_, List.mem_of_elem_eq_true h5⟩
  · cases hp : r.price with
    | none => rw [hp] at h1; exact absurd h1 (by simp [optGe])
    | some p =>
        rw [hp] at h1 h2
        exact ⟨p, rfl, by simpa [optGe] using h1, by simpa [optLe] using h2⟩
  · cases hq : r.rating with
    | none => rw [hq] at h3; exact absurd h3 (by simp [optGe])
    | some q =>
        rw [hq] at h3 h4
        exact ⟨q, rfl, by simpa [optGe] using h3, by simpa [optLe] using h4⟩

/-- Witness for C1: the single matching record of a concrete table,
checked against concrete controls. -/
theorem C1_filter_evaluator_sound_witness :
    (∃ p, (⟨"A", "Cairo", some 1000, some 7⟩ : Row).price = some p ∧
        (0 : ℚ) ≤ p ∧ p ≤ (2000 : ℚ)) ∧
    (∃ q, (⟨"A", "Cairo", some 1000, some 7⟩ : Row).rating = some q ∧
        (0 : ℚ) ≤ q ∧ q ≤ (10 : ℚ)) ∧
    (⟨"A", "Cairo", some 1000, some 7⟩ : Row).location ∈ ["Cairo", "Giza"] :=
  (C1_filter_evaluator_sound [⟨"A", "Cairo", some 1000, some 7⟩]
      ⟨0, 2000, 0, 10, ["Cairo", "Giza"]⟩).1
    ⟨"A", "Cairo", some 1000, some 7⟩ (by decide)

/-- C2: the price cleaner strips the currency suffix and commas and
parses the rest as a number, turning failures into missing; the string
1,234 EGP parses to 1234 and a record whose price field is N/A is
dropped from the cleaned table. -/
theorem C2_price_cleaning :
    cleanPrice "1,234 EGP" = some 1234 ∧ cleanPrice "N/A" = none ∧
    ∀ (rs : List RawRecord) (r : RawRecord), r.price = "N/A" →
      toRow r ∉ hotels_df rs := by
  refine ⟨by decide, by decide, ?_⟩
  intro rs r hp hmem
  have hs := (List.mem_filter.mp hmem).2
  rw [Bool.and_eq_true] at hs
  have hpr : (toRow r).price = cleanPrice r.price := rfl
  rw [hpr, hp] at hs
  have hnone : cleanPrice "N/A" = none := by decide
  rw [hnone] at hs
  exact absurd hs.1 (by simp)

/-- Witness for C2: a concrete record with price N/A is absent from the
cleaned table built from it. -/
theorem C2_price_cleaning_witness :
    toRow ⟨"X", "Cairo", "N/A", "8.5 Good"⟩ ∉
      hotels_df [⟨"X", "Cairo", "N/A", "8.5 Good"⟩] :=
  C2_price_cleaning.2.2 [⟨"X", "Cairo", "N/A", "8.5 Good"⟩]
    ⟨"X", "Cairo", "N/A", "8.5 Good"⟩ rfl

/-- C3: the rating cleaner extracts the first decimal-number substring
and parses it, turning failure or absence into missing; 8.5 Excellent
yields 17/2 and a record whose rating field is Excellent is dropped from
the cleaned table. -/
theorem C3_rating_cleaning :
    cleanRating "8.5 Excellent" = some (17 / 2) ∧ cleanRating "Excellent" = none ∧
    ∀ (rs : List RawRecord) (r : RawRecord), r.rating = "Excellent" →
      toRow r ∉ hotels_df rs := by
  refine ⟨?_, by decide, ?_⟩
  · have h85 : cleanRating "8.5 Excellent" = some (mkRat 85 10) := by decide
    rw [h85]
    congr 1
    rw [Rat.mkRat_eq_divInt, Rat.divInt_eq_div]
    norm_num
  · intro rs r hq hmem
    have hs := (List.mem_filter.mp hmem).2
    rw [Bool.and_eq_true] at hs
    have hrt : (toRow r).rating = cleanRating r.rating := rfl
    rw [hrt, hq] at hs
    have hnone : cleanRating "Excellent" = none := by decide
    rw [hnone] at hs
    exact absurd hs.2 (by simp)

/-- Witness for C3: a concrete record whose rating text has no decimal
number is absent from the cleaned table built from it. -/
theorem C3_rating_cleaning_witness :
    toRow ⟨"Y", "Giza", "500 EGP", "Excellent"⟩ ∉
      hotels_df [⟨"Y", "Giza", "500 EGP", "Excellent"⟩] :=
  C3_rating_cleaning.2.2 [⟨"Y", "Giza", "500 EGP", "Excellent"⟩]
    ⟨"Y", "Giza", "500 EGP", "Excellent"⟩ rfl

/-- C4: every row retained after cleaning has present (non-NaN) price
and rating, and so does every row the Filter Evaluator passes on and
every row reaching the budget-hotels chart builder. -/
theorem C4_no_missing_survives (rs : List RawRecord) (c : Controls) (x : Row) :
    (x ∈ hotels_df rs → x.price.isSome = true ∧ x.rating.isSome = true) ∧
    (x ∈ filtered_df (hotels_df rs) c → x.price.isSome = true ∧ x.rating.isSome = true) ∧
    (x ∈ top_budget_rated (filtered_df (hotels_df rs) c) →
      x.price.isSome = true ∧ x.rating.isSome = true) := by
  have hbase : x ∈ hotels_df rs → x.price.isSome = true ∧ x.rating.isSome = true := by
    intro hx
    have h := (List.mem_filter.mp hx).2
    rw [Bool.and_eq_true] at h
    exact h
  have hfd : x ∈ filtered_df (hotels_df rs) c → x ∈ hotels_df rs :=
    fun hx => (List.mem_filter.mp hx).1
  refine ⟨hbase, fun hx => hbase (hfd hx), fun hx => ?_⟩
  have h1 : x ∈ sortRatingDesc (budget_hotels (filtered_df (hotels_df rs) c)) :=
    (List.take_sublist 10 _).subset hx
  have h2 : x ∈ budget_hotels (filtered_df (hotels_df rs) c) :=
    (List.perm_insertionSort ratingGE _).mem_iff.mp h1
  exact hbase (hfd (List.mem_filter.mp h2).1)

/-- Witness for C4: a concrete record's cleaned row, traced through the
base table, the filter and the budget builder. -/
theorem C4_no_missing_survives_witness :
    ((toRow ⟨"A", "Cairo", "500 EGP", "7.0 Good"⟩).price.isSome = true ∧
      (toRow ⟨"A", "Cairo", "500 EGP", "7.0 Good"⟩).rating.isSome = true) ∧
    ((toRow ⟨"A", "Cairo", "500 EGP", "7.0 Good"⟩).price.isSome = true ∧
      (toRow ⟨"A", "Cairo", "500 EGP", "7.0 Good"⟩).rating.isSome = true) ∧
    ((toRow ⟨"A", "Cairo", "500 EGP", "7.0 Good"⟩).price.isSome = true ∧
      (toRow ⟨"A", "Cairo", "500 EGP", "7.0 Good"⟩).rating.isSome = true) :=
  ⟨(C4_no_missing_survives
      [⟨"A", "Cairo", "500 EGP", "7.0 Good"⟩, ⟨"B", "Cairo", "1,000 EGP", "9.0 Great"⟩]
      ⟨0, 2000, 0, 10, ["Cairo"]⟩ (toRow ⟨"A", "Cairo", "500 EGP", "7.0 Good"⟩)).1
      (by decide),
   (C4_no_missing_survives
      [⟨"A", "Cairo", "500 EGP", "7.0 Good"⟩, ⟨"B", "Cairo", "1,000 EGP", "9.0 Great"⟩]
      ⟨0, 2000, 0, 10, ["Cairo"]⟩ (toRow ⟨"A", "Cairo", "500 EGP", "7.0 Good"⟩)).2.1
      (by decide),
   (C4_no_missing_survives
      [⟨"A", "Cairo", "500 EGP", "7.0 Good"⟩, ⟨"B", "Cairo", "1,000 EGP", "9.0 Great"⟩]
      ⟨0, 2000, 0, 10, ["Cairo"]⟩ (toRow ⟨"A", "Cairo", "500 EGP", "7.0 Good"⟩)).2.2
      (by decide)⟩

/-- C5: on an empty filtered table, every chart builder's data is empty
(zero data points, no failure), the mean over the empty price column is
the defined placeholder `none` (pandas NaN), and the group-by mean is
empty. -/
theorem C5_empty_filtered_renders_empty :
    figTopRated [] = [] ∧ figPriceDist [] = [] ∧ figRatingVsPrice [] = [] ∧
    avg_price_by_hotel [] = [] ∧ budget_hotels [] = [] ∧ figBudgetRated [] = [] ∧
    figRatingLine [] = [] ∧ figPriceLine [] = [] ∧ figAllByRating [] = [] ∧
    seriesMean [] = none := by
  decide

/-- C6: the budget-hotels builder selects exactly the filtered records
priced strictly below the filtered set's mean price, and charts the
first ten of them by rating descending: its data is sorted descending,
has min 10 (budget count) entries, all drawn from the budget set, and
every charted row rates at least as high as every budget row left out. -/
theorem C6_budget_builder (df : List Row) :
    (∀ r, r ∈ budget_hotels df ↔
        r ∈ df ∧ ∃ p m, r.price = some p ∧
          seriesMean (df.map Row.price) = some m ∧ p < m) ∧
    List.Sorted ratingGE (top_budget_rated df) ∧
    (top_budget_rated df).length = min 10 (budget_hotels df).length ∧
    (∀ r ∈ top_budget_rated df, r ∈ budget_hotels df) ∧
    (∀ a ∈ top_budget_rated df,
      ∀ b ∈ (sortRatingDesc (budget_hotels df)).drop 10, ratingGE a b) ∧
    figBudgetRated df = (top_budget_rated df).map (fun r => (r.name, r.rating)) := by
  refine ⟨?_, ?_, ?_, ?_, ?_, rfl⟩
  · intro r
    rw [budget_hotels, List.mem_filter]
    constructor
    · rintro ⟨hmem, hlt⟩
      refine ⟨hmem, ?_⟩
      cases hp : r.price with
      | none => rw [hp] at hlt; exact absurd hlt (by simp [optLtOpt])
      | some p =>
          cases hm : seriesMean (df.map Row.price) with
          | none => rw [hp, hm] at hlt; exact absurd hlt (by simp [optLtOpt])
          | some m =>
              rw [hp, hm] at hlt
              exact ⟨p, m, rfl, rfl, by simpa [optLtOpt] using hlt⟩
    · rintro ⟨hmem, p, m, hp, hm, hlt⟩
      refine ⟨hmem, ?_⟩
      rw [hp, hm]
      simpa [optLtOpt] using hlt
  · exact List.Pairwise.sublist (List.take_sublist 10 _)
      (List.sorted_insertionSort ratingGE (budget_hotels df))
  · rw [top_budget_rated, sortRatingDesc, List.length_take,
      (List.perm_insertionSort ratingGE (budget_hotels df)).length_eq]
  · intro r hr
    exact (List.perm_insertionSort ratingGE _).mem_iff.mp
      ((List.take_sublist 10 _).subset hr)
  · intro a ha b hb
    have hs := List.sorted_insertionSort ratingGE (budget_hotels df)
    rw [← List.take_append_drop 10 (List.insertionSort ratingGE (budget_hotels df))] at hs
    exact (List.pairwise_append.mp hs).2.2 a ha b hb

/-- Witness for C6: in a concrete two-row filtered table, the cheap
highly-rated row is charted by the budget builder and lies in the budget
set. -/
theorem C6_budget_builder_witness :
    (⟨"A", "Cairo", some 100, some (mkRat 70 10)⟩ : Row) ∈
      budget_hotels [⟨"A", "Cairo", some 100, some (mkRat 70 10)⟩,
        ⟨"B", "Cairo", some 300, some (mkRat 90 10)⟩] :=
  (C6_budget_builder [⟨"A", "Cairo", some 100, some (mkRat 70 10)⟩,
      ⟨"B", "Cairo", some 300, some (mkRat 90 10)⟩]).2.2.2.1
    ⟨"A", "Cairo", some 100, some (mkRat 70 10)⟩ (by decide)

/-- C9 counterexample: the eighth chart is not displayed in descending
rating order.  On a concrete two-hotel filtered table where A rates 9
and B rates 7, the data handed to the chart is in descending order
A, B (line 159), but the layout override of line 168 (`categoryorder
'total ascending'`) displays the bars in the order B, A — ascending,
the reverse of the claimed descending order. -/
theorem C9_displayed_order_counterexample :
    fig_price_displayed_order
        [⟨"A", "Cairo", some 100, some 9⟩, ⟨"B", "Cairo", some 200, some 7⟩]
      = ["B", "A"] ∧
    (sortRatingDesc
        [⟨"A", "Cairo", some 100, some 9⟩, ⟨"B", "Cairo", some 200, some 7⟩]).map Row.name
      = ["A", "B"] := by
  decide

/-- C9 as amended: the eighth chart's data is the whole filtered table,
not a truncated prefix — a permutation of the filtered rows, sorted by
rating descending, labeled by hotel name, with one point per filtered
row — but the bars are displayed in the order of the layout override of
lines 167-173: the distinct hotel names ordered ascending by their
rating total, not descending by rating. -/
theorem C9_all_hotels_chart (df : List Row) :
    List.Perm (sortRatingDesc df) df ∧
    List.Sorted ratingGE (sortRatingDesc df) ∧
    figAllByRating df = (sortRatingDesc df).map (fun r => (r.name, r.rating)) ∧
    (figAllByRating df).length = df.length ∧
    List.Sorted (totalAsc (figAllByRating df)) (fig_price_displayed_order df) ∧
    List.Perm (fig_price_displayed_order df) ((figAllByRating df).map Prod.fst).dedup := by
  refine ⟨List.perm_insertionSort _ _, List.sorted_insertionSort _ _, rfl, ?_,
    List.sorted_insertionSort _ _, List.perm_insertionSort _ _⟩
  rw [figAllByRating, List.length_map, sortRatingDesc,
    (List.perm_insertionSort ratingGE df).length_eq]

/-- C10: a rating string whose only number has no decimal point, such as
9 Good, fails the digits-dot-digits extraction; its rating becomes
missing and the record is dropped during cleaning. -/
theorem C10_integer_rating_dropped :
    extractDec ("9 Good".toList) = none ∧ cleanRating "9 Good" = none ∧
    ∀ (rs : List RawRecord) (r : RawRecord), r.rating = "9 Good" →
      toRow r ∉ hotels_df rs := by
  refine ⟨by decide, by decide, ?_⟩
  intro rs r hq hmem
  have hs := (List.mem_filter.mp hmem).2
  rw [Bool.and_eq_true] at hs
  have hrt : (toRow r).rating = cleanRating r.rating := rfl
  rw [hrt, hq] at hs
  have hnone : cleanRating "9 Good" = none := by decide
  rw [hnone] at hs
  exact absurd hs.2 (by simp)

/-- Witness for C10: a concrete record rated 9 Good is absent from the
cleaned table built from it. -/
theorem C10_integer_rating_dropped_witness :
    toRow ⟨"Z", "Luxor", "750 EGP", "9 Good"⟩ ∉
      hotels_df [⟨"Z", "Luxor", "750 EGP", "9 Good"⟩] :=
  C10_integer_rating_dropped.2.2 [⟨"Z", "Luxor", "750 EGP", "9 Good"⟩]
    ⟨"Z", "Luxor", "750 EGP", "9 Good"⟩ rfl

/-- C7: the Filter Evaluator is idempotent: applying the filter to its
own output with the same control values returns the output unchanged. -/
theorem C7_filter_idempotent (df : List Row) (c : Controls) :
    filtered_df (filtered_df df c) c = filtered_df df c := by
  apply List.filter_eq_self.mpr
  intro a ha
  exact (List.mem_filter.mp ha).2

/-- C8: one interaction leaves the state (the cleaned base table)
unchanged; the filtered table it renders is a derived sublist of the
base table, not a mutation of it. -/
theorem C8_no_mutation (s : DashState) (c : Controls) :
    (renderInteraction s c).1 = s ∧
    (renderInteraction s c).2.table = filtered_df s.base c ∧
    List.Sublist (filtered_df s.base c) s.base :=
  ⟨rfl, rfl, List.filter_sublist _⟩

end Booking
